import Mathlib

/-!
Shallow embedding of the supervice process supervisor (rodmena-limited/supervice)
and proofs about its supervision state machine, orchestrator, event bus and
control RPC.  Definitions are translated from the Python sources in
`src/supervice/`; where a function is referenced but absent from the sources
(`Process.kill`, the event-bus dispatcher body) a definition modelled from the
specification is used and marked as such in its doc comment.
-/

namespace Supervice

/-- Process states, from the module-level constants of `process.py`
(STOPPED, STARTING, RUNNING, BACKOFF, STOPPING, EXITED, FATAL, UNHEALTHY). -/
inductive PState where
  | STOPPED
  | STARTING
  | RUNNING
  | BACKOFF
  | STOPPING
  | EXITED
  | FATAL
  | UNHEALTHY
deriving DecidableEq, Repr

/-- `models.HealthCheckType`: tag selecting the health-check variant. -/
inductive HealthCheckType where
  | none
  | tcp
  | script
deriving DecidableEq, Repr

/-- `models.HealthCheckConfig`: configuration for process health checks. -/
structure HealthCheckConfig where
  type : HealthCheckType := HealthCheckType.none
  interval : Nat := 30
  timeout : Nat := 10
  retries : Nat := 3
  start_period : Nat := 10
  port : Option Nat := Option.none
  host : String := "127.0.0.1"
  command : Option String := Option.none
deriving DecidableEq, Repr

/-- `models.ProgramConfig`: one managed program as parsed from the config file.
The `environment` dict is embedded as an association list. -/
structure ProgramConfig where
  name : String
  command : String
  numprocs : Nat := 1
  autostart : Bool := true
  autorestart : Bool := true
  startsecs : Nat := 1
  startretries : Nat := 3
  stopsignal : String := "TERM"
  stopwaitsecs : Nat := 10
  stdout_logfile : Option String := Option.none
  stderr_logfile : Option String := Option.none
  environment : List (String × String) := []
  directory : Option String := Option.none
  user : Option String := Option.none
  group : Option String := Option.none
  healthcheck : HealthCheckConfig := {}
deriving DecidableEq, Repr

/-- `process.EXIT_CODE_USER_SWITCH_FAILED`. -/
def EXIT_CODE_USER_SWITCH_FAILED : Int := 126

/-- `process.EXIT_CODE_PREEXEC_FAILED`. -/
def EXIT_CODE_PREEXEC_FAILED : Int := 127

/-- `Process.wait` (process.py lines 281-310), after the child has been reaped:
given the child's return code, the monotonic runtime since spawn, and the
configured `startsecs`, it maps return code 126 or 127 to FATAL and any other
return code to EXITED; on the EXITED path `backoff` is reset to 0 when the
child stayed alive at least `startsecs` seconds.  Result: (new state, new
backoff counter). -/
def waitStep (returnCode : Int) (runtime startsecs backoff : Nat) : PState × Nat :=
  if returnCode = EXIT_CODE_USER_SWITCH_FAILED then
    (PState.FATAL, backoff)
  else if returnCode = EXIT_CODE_PREEXEC_FAILED then
    (PState.FATAL, backoff)
  else
    (PState.EXITED, if runtime ≥ startsecs then 0 else backoff)

/-- Runtime fields of a `Process` object (process.py `Process.__init__`):
the supervision state, the consecutive backoff counter, the desired-run flag
`should_run`, plus a ghost counter of spawn attempts used to state retry
properties. -/
structure Inst where
  config : ProgramConfig
  state : PState
  backoff : Nat
  shouldRun : Bool
  spawnCount : Nat
deriving DecidableEq, Repr

/-- `Process.__init__`: state STOPPED, backoff 0, `should_run = config.autostart`. -/
def initInst (cfg : ProgramConfig) : Inst :=
  { config := cfg, state := PState.STOPPED, backoff := 0,
    shouldRun := cfg.autostart, spawnCount := 0 }

/-- Outcome of one `Process.spawn` call as observed by the supervision loop:
either spawn raised an exception (exec-not-found, open failure, ...; process.py
lines 271-273 then set state FATAL), or a child was spawned and later reaped
with the given return code after `runtime` monotonic seconds, so that
`Process.wait` ran (its effect is `waitStep`). -/
inductive SpawnOutcome where
  | spawnError
  | exited (returnCode : Int) (runtime : Nat)
deriving DecidableEq, Repr

/-- The states from which `Process.supervise` attempts a spawn
(process.py line 140: STOPPED, EXITED, FATAL, BACKOFF). -/
def spawnable : PState → Bool
  | PState.STOPPED => true
  | PState.EXITED => true
  | PState.FATAL => true
  | PState.BACKOFF => true
  | _ => false

/-- One iteration of the `Process.supervise` loop body (process.py lines
138-168) in a run where the stop event is never set: when `should_run` holds
and the state is spawnable, any BACKOFF sleep elapses uninterrupted and
`spawn` runs — its effect is FATAL on a spawn exception, or `waitStep` on the
reaped child — after which the EXITED/FATAL aftermath of lines 153-163 is
applied (autorestart enters BACKOFF, increments `backoff`, and goes FATAL with
`should_run` cleared once `backoff > startretries`).  Otherwise the iteration
leaves the instance unchanged. -/
def superviseStep (o : SpawnOutcome) (p : Inst) : Inst :=
  if p.shouldRun && spawnable p.state then
    let afterSpawn :=
      match o with
      | SpawnOutcome.spawnError =>
          { p with state := PState.FATAL, spawnCount := p.spawnCount + 1 }
      | SpawnOutcome.exited rc runtime =>
          let w := waitStep rc runtime p.config.startsecs p.backoff
          { p with state := w.1, backoff := w.2, spawnCount := p.spawnCount + 1 }
    if afterSpawn.state = PState.EXITED then
      if p.config.autorestart then
        let b := { afterSpawn with
                     state := PState.BACKOFF, backoff := afterSpawn.backoff + 1 }
        if b.backoff > p.config.startretries then
          { b with state := PState.FATAL, shouldRun := false }
        else b
      else { afterSpawn with shouldRun := false }
    else if afterSpawn.state = PState.FATAL then
      { afterSpawn with shouldRun := false }
    else afterSpawn
  else p

/-- `n` iterations of the supervision loop with a fixed spawn outcome. -/
def superviseRun (o : SpawnOutcome) : Nat → Inst → Inst
  | 0, p => p
  | n + 1, p => superviseRun o n (superviseStep o p)

theorem superviseStep_of_not_run (o : SpawnOutcome) (p : Inst)
    (h : p.shouldRun = false) : superviseStep o p = p := by
  simp [superviseStep, h]

theorem superviseRun_of_not_run (o : SpawnOutcome) (n : Nat) (p : Inst)
    (h : p.shouldRun = false) : superviseRun o n p = p := by
  induction n with
  | zero => rfl
  | succ n ih => simp [superviseRun, superviseStep_of_not_run o p h, ih]

theorem superviseRun_add (o : SpawnOutcome) (a b : Nat) (p : Inst) :
    superviseRun o (a + b) p = superviseRun o a (superviseRun o b p) := by
  induction b generalizing p with
  | zero => rfl
  | succ b ih => simp [superviseRun, Nat.add_succ, ih]

/-- The program of spec scenario 2: always-failing child, `startretries = 3`,
`startsecs = 1`, autostart and autorestart on (defaults of `ProgramConfig`). -/
def retryCfg : ProgramConfig :=
  { name := "retry", command := "false", startsecs := 1, startretries := 3 }

/-- C1: for every reaped child, the state entered by `Process.wait` is
determined by the exit code: 126 gives FATAL (user-switch failure), 127 gives
FATAL (preexec failure), and every other exit code gives EXITED. -/
theorem c1_wait_exit_code_state (returnCode : Int) (runtime startsecs backoff : Nat) :
    (waitStep returnCode runtime startsecs backoff).1 =
      if returnCode = 126 ∨ returnCode = 127 then PState.FATAL else PState.EXITED := by
  unfold waitStep EXIT_CODE_USER_SWITCH_FAILED EXIT_CODE_PREEXEC_FAILED
  by_cases h1 : returnCode = 126 <;> by_cases h2 : returnCode = 127 <;>
    simp [h1, h2]

/-- C2: with autorestart on and a child that always exits quickly (runtime
below `startsecs`, normal exit code), (i) every supervision iteration that
spawns ends in EXITED and increments `backoff`, going FATAL with desired-run
cleared exactly when `backoff` exceeds `startretries`; and (ii) for
`startretries = 3` the loop makes exactly 4 spawn attempts (initial + 3
retries) and then stays in FATAL with `should_run` false forever. -/
theorem c2_retry_then_fatal :
    (∀ (p : Inst) (rc : Int) (runtime : Nat),
        p.shouldRun = true → spawnable p.state = true →
        p.config.autorestart = true →
        rc ≠ 126 → rc ≠ 127 → runtime < p.config.startsecs →
        superviseStep (SpawnOutcome.exited rc runtime) p =
          (if p.backoff + 1 > p.config.startretries then
            { p with state := PState.FATAL, backoff := p.backoff + 1,
                     shouldRun := false, spawnCount := p.spawnCount + 1 }
          else
            { p with state := PState.BACKOFF, backoff := p.backoff + 1,
                     spawnCount := p.spawnCount + 1 })) ∧
    (∀ n : Nat,
        superviseRun (SpawnOutcome.exited 1 0) (4 + n) (initInst retryCfg) =
          { config := retryCfg, state := PState.FATAL, backoff := 4,
            shouldRun := false, spawnCount := 4 }) := by
  constructor
  · intro p rc runtime hrun hsp har h126 h127 hq
    have hwait : waitStep rc runtime p.config.startsecs p.backoff =
        (PState.EXITED, p.backoff) := by
      simp [waitStep, EXIT_CODE_USER_SWITCH_FAILED, EXIT_CODE_PREEXEC_FAILED,
        h126, h127, Nat.not_le.mpr hq]
    simp only [superviseStep, hrun, hsp, Bool.and_self, if_true, hwait, har]
  · intro n
    have h4 : superviseRun (SpawnOutcome.exited 1 0) 4 (initInst retryCfg) =
        { config := retryCfg, state := PState.FATAL, backoff := 4,
          shouldRun := false, spawnCount := 4 } := by decide
    rw [Nat.add_comm, superviseRun_add, h4, superviseRun_of_not_run]
    rfl

/-- Witness for C2 at concrete inputs: the first iteration from the initial
instance goes to BACKOFF with backoff 1, and after 10 iterations the
instance is FATAL with 4 spawn attempts. -/
theorem c2_retry_then_fatal_witness :
    superviseStep (SpawnOutcome.exited 1 0) (initInst retryCfg) =
      { config := retryCfg, state := PState.BACKOFF, backoff := 1,
        shouldRun := true, spawnCount := 1 } ∧
    superviseRun (SpawnOutcome.exited 1 0) 10 (initInst retryCfg) =
      { config := retryCfg, state := PState.FATAL, backoff := 4,
        shouldRun := false, spawnCount := 4 } := by
  constructor
  · have h := c2_retry_then_fatal.1 (initInst retryCfg) 1 0 rfl rfl rfl
      (by decide) (by decide) (by decide)
    simpa using h
  · exact c2_retry_then_fatal.2 6

/-- The mutation performed under the state lock by `Process.start_process`
(process.py lines 108-112): if the state is RUNNING the request returns at
once; otherwise `should_run` is set and `backoff` reset to 0 (manual start).
The subsequent waiting loop of lines 114-128 performs no mutation. -/
def startProcessStep (p : Inst) : Inst :=
  if p.state = PState.RUNNING then p
  else { p with shouldRun := true, backoff := 0 }

/-- The mutation performed by `Process.stop_process` (process.py lines
130-134): clear `should_run`, then call `kill`.  `Process.kill` is absent
from the sources; per spec section 4.C it signals the live child, and between
supervision iterations of this model no child is live, so it mutates
nothing here. -/
def stopProcessStep (p : Inst) : Inst :=
  { p with shouldRun := false }

/-- Interleaved atomic steps of the per-instance system: one supervision
iteration, an RPC start request, or an RPC stop request. -/
inductive Step : Inst → Inst → Prop
  | supervise (o : SpawnOutcome) (p : Inst) : Step p (superviseStep o p)
  | rpcStart (p : Inst) : Step p (startProcessStep p)
  | rpcStop (p : Inst) : Step p (stopProcessStep p)

/-- Instance configurations reachable from the freshly constructed instance. -/
inductive Reach (cfg : ProgramConfig) : Inst → Prop
  | init : Reach cfg (initInst cfg)
  | step {p q : Inst} : Reach cfg p → Step p q → Reach cfg q

/-- Reachability when the RPC start command is never issued on the instance. -/
inductive ReachNoStart (cfg : ProgramConfig) : Inst → Prop
  | init : ReachNoStart cfg (initInst cfg)
  | supervise {p : Inst} (o : SpawnOutcome) :
      ReachNoStart cfg p → ReachNoStart cfg (superviseStep o p)
  | rpcStop {p : Inst} : ReachNoStart cfg p → ReachNoStart cfg (stopProcessStep p)

/-- A program that goes FATAL after its first failed start
(`startretries = 0`, autostart and autorestart on). -/
def failFastCfg : ProgramConfig :=
  { name := "failfast", command := "false", startsecs := 1, startretries := 0 }

theorem superviseStep_fatal_not_run (o : SpawnOutcome) (p : Inst)
    (hp : p.state = PState.FATAL → p.shouldRun = false) :
    (superviseStep o p).state = PState.FATAL → (superviseStep o p).shouldRun = false := by
  by_cases hrun : p.shouldRun && spawnable p.state
  · cases o with
    | spawnError => intro _; simp [superviseStep, hrun]
    | exited rc runtime =>
        by_cases h1 : rc = EXIT_CODE_USER_SWITCH_FAILED
        · intro _; simp [superviseStep, hrun, waitStep, h1]
        · by_cases h2 : rc = EXIT_CODE_PREEXEC_FAILED
          · intro _; simp [superviseStep, hrun, waitStep, h1, h2]
          · by_cases har : p.config.autorestart
            · simp only [superviseStep, hrun, waitStep, h1, h2, har, if_true,
                Bool.and_self, ite_false, ite_true]
              split <;> split <;> simp_all
            · simp [superviseStep, hrun, waitStep, h1, h2, har]
  · simpa [superviseStep, hrun] using hp

/-- C5 (amended): along every execution in which the RPC start command is not
issued, an instance in state FATAL has its desired-run flag cleared. -/
theorem c5_fatal_clears_desired_run (cfg : ProgramConfig) (p : Inst)
    (h : ReachNoStart cfg p) : p.state = PState.FATAL → p.shouldRun = false := by
  induction h with
  | init => intro hf; simp [initInst] at hf
  | supervise o hp ih => exact superviseStep_fatal_not_run o _ ih
  | rpcStop hp ih => intro _; rfl

/-- C5 counterexample: the claim as stated is false.  With `failFastCfg` the
instance reaches FATAL after one supervision iteration, and a subsequent RPC
start request (`Process.start_process`, which only returns early when the
state is RUNNING) sets `should_run` while the state is still FATAL, so the
configuration (state = FATAL, should_run = true) is reachable. -/
theorem c5_counterexample :
    ¬ (∀ p : Inst, Reach failFastCfg p →
        p.state = PState.FATAL → p.shouldRun = false) := by
  intro h
  have hr : Reach failFastCfg
      (startProcessStep (superviseStep (SpawnOutcome.exited 1 0) (initInst failFastCfg))) :=
    Reach.step (Reach.step Reach.init (Step.supervise (SpawnOutcome.exited 1 0) _))
      (Step.rpcStart _)
  have hc := h _ hr (by decide)
  exact absurd hc (by decide)

/-- Witness for the amended C5 at a concrete reachable point: after one
supervision iteration of `failFastCfg` the instance is FATAL and the theorem
yields `should_run = false` there. -/
theorem c5_fatal_clears_desired_run_witness :
    (superviseStep (SpawnOutcome.exited 1 0) (initInst failFastCfg)).shouldRun = false :=
  c5_fatal_clears_desired_run failFastCfg _
    (ReachNoStart.supervise (SpawnOutcome.exited 1 0) ReachNoStart.init) (by decide)

/-- Python `"%02d" % n` for a natural number: zero-padded to width 2. -/
def fmt02d (n : Nat) : String :=
  if n < 10 then "0" ++ toString n else toString n

/-- Instance name `"%s:%02d" % (name, i)` (core.py line 61). -/
def instanceName (name : String) (i : Nat) : String :=
  name ++ ":" ++ fmt02d i

/-- Python `str.replace`: replace all non-overlapping occurrences of `old`
left to right, on character lists, with fuel for termination (fuel is taken
larger than the input length, so it never runs out). -/
def replaceFuel (old new : List Char) : Nat → List Char → List Char
  | 0, s => s
  | _ + 1, [] => []
  | fuel + 1, c :: rest =>
    if old.isPrefixOf (c :: rest) then
      new ++ replaceFuel old new fuel ((c :: rest).drop old.length)
    else
      c :: replaceFuel old new fuel rest

/-- Python `s.replace(old, new)` on strings. -/
def pyReplace (s old new : String) : String :=
  String.mk (replaceFuel old.toList new.toList (s.toList.length + 1) s.toList)

/-- The body of `Supervisor._expand_logfile` (core.py lines 45-48), the
two-parameter function as written: replace the token `%(process_num)s` in the
path by the zero-padded instance index. -/
def expand_logfile (path : Option String) (processNum : Nat) : Option String :=
  match path with
  | Option.none => Option.none
  | Option.some p => Option.some (pyReplace p "%(process_num)s" (fmt02d processNum))

/-- The call `self._expand_logfile(path, i)` as Python executes it (core.py
lines 65-66).  `_expand_logfile` is written in the class body with exactly the
two parameters `(path, process_num)` — no `self` and no `@staticmethod`
decorator — so attribute access on `self` produces a bound method and the call
passes three positional arguments to a two-parameter function: Python raises
TypeError before the function body runs. -/
def call_expand_logfile (_path : Option String) (_processNum : Nat) :
    Except String (Option String) :=
  Except.error "TypeError: _expand_logfile() takes 2 positional arguments but 3 were given"

/-- Association-list lookup keyed by the first matching name. -/
def lookupTable {β : Type} : List (String × β) → String → Option β
  | [], _ => Option.none
  | (k, v) :: t, n => if k = n then Option.some v else lookupTable t n

/-- The orchestrator state: process table and group table (core.py
`Supervisor.processes` / `Supervisor.groups`), embedded as association lists
in insertion order. -/
structure SupState where
  processes : List (String × Inst)
  groups : List (String × List String)
deriving DecidableEq, Repr

/-- The freshly constructed `Supervisor` (empty tables). -/
def emptySup : SupState := { processes := [], groups := [] }

/-- `prog_config.group if prog_config.group else prog_config.name`
(core.py line 55); the empty string is falsy in Python. -/
def groupNameOf (prog : ProgramConfig) : String :=
  match prog.group with
  | Option.none => prog.name
  | Option.some g => if g = "" then prog.name else g

/-- `if group_name not in self.groups: self.groups[group_name] = []`
(core.py lines 56-57). -/
def ensureGroup (gs : List (String × List String)) (g : String) :
    List (String × List String) :=
  if (lookupTable gs g).isSome then gs else gs ++ [(g, [])]

/-- `self.groups[group_name].append(instance_name)` (core.py lines 70 and 74). -/
def appendGroupMember (gs : List (String × List String)) (g m : String) :
    List (String × List String) :=
  gs.map (fun kv => if kv.1 = g then (kv.1, kv.2 ++ [m]) else kv)

/-- The `for i in range(numprocs)` loop of `Supervisor._create_processes`
(core.py lines 60-70): each iteration calls `self._expand_logfile` for both
log paths (which raises TypeError, see `call_expand_logfile`), builds the
instance config with `dataclasses.replace`, and registers the instance if its
name is not yet in the table. -/
def createInstancesLoop (gname : String) (prog : ProgramConfig) :
    List Nat → SupState → Except String SupState
  | [], st => Except.ok st
  | i :: rest, st =>
    match call_expand_logfile prog.stdout_logfile i,
          call_expand_logfile prog.stderr_logfile i with
    | Except.ok so, Except.ok se =>
        let iname := instanceName prog.name i
        let pconf := { prog with
          name := iname, stdout_logfile := so, stderr_logfile := se }
        let st2 :=
          if (lookupTable st.processes iname).isSome then st
          else { st with
            processes := st.processes ++ [(iname, initInst pconf)],
            groups := appendGroupMember st.groups gname iname }
        createInstancesLoop gname prog rest st2
    | Except.error e, _ => Except.error e
    | _, Except.error e => Except.error e

/-- `Supervisor._create_processes` for one program (core.py lines 54-74):
ensure the group entry, then either run the `numprocs > 1` loop or register a
single instance under the program name. -/
def createForProgram (st : SupState) (prog : ProgramConfig) :
    Except String SupState :=
  let gname := groupNameOf prog
  let st1 : SupState := { st with groups := ensureGroup st.groups gname }
  if prog.numprocs > 1 then
    createInstancesLoop gname prog (List.range prog.numprocs) st1
  else
    if (lookupTable st1.processes prog.name).isSome then Except.ok st1
    else Except.ok { st1 with
      processes := st1.processes ++ [(prog.name, initInst prog)],
      groups := appendGroupMember st1.groups gname prog.name }

/-- `Supervisor._create_processes` over the program list; an exception in any
program aborts the whole call (it propagates to the caller). -/
def create_processes (progs : List ProgramConfig) (st : SupState) :
    Except String SupState :=
  match progs with
  | [] => Except.ok st
  | prog :: rest =>
    match createForProgram st prog with
    | Except.ok st2 => create_processes rest st2
    | Except.error e => Except.error e

/-- A program with a `%(process_num)s` token in its stdout log path. -/
def webCfg : ProgramConfig :=
  { name := "web", command := "server",
    stdout_logfile := Option.some "/log/web.%(process_num)s.out" }

/-- `webCfg` with three instances requested. -/
def webCfg3 : ProgramConfig := { webCfg with numprocs := 3 }

/-- C4 at the failing input: materialising a program with `numprocs = 1`
yields exactly one table entry named `web`, but materialising the same
program with `numprocs = 3` raises TypeError (the `self._expand_logfile`
call passes three positional arguments to the two-parameter function) instead
of producing `web:00`, `web:01`, `web:02`; the intended expansion, applied
directly to the function body, does substitute the zero-padded index. -/
theorem c4_numprocs_materialisation :
    create_processes [webCfg] emptySup =
      Except.ok { processes := [("web", initInst webCfg)],
                  groups := [("web", ["web"])] } ∧
    create_processes [webCfg3] emptySup =
      Except.error
        "TypeError: _expand_logfile() takes 2 positional arguments but 3 were given" ∧
    expand_logfile (Option.some "/log/web.%(process_num)s.out") 2 =
      Option.some "/log/web.02.out" ∧
    (instanceName "web" 0 = "web:00" ∧ instanceName "web" 1 = "web:01" ∧
      instanceName "web" 2 = "web:02") := by
  refine ⟨rfl, rfl, by decide, by decide, by decide, by decide⟩

/-- The expanded instance names of one program as computed by
`Supervisor.reload_config` (core.py lines 117-123). -/
def instanceNamesOf (prog : ProgramConfig) : List String :=
  if prog.numprocs > 1 then (List.range prog.numprocs).map (instanceName prog.name)
  else [prog.name]

/-- The set `new_names` of `reload_config`, as a duplicate-free list. -/
def newNamesOf (progs : List ProgramConfig) : List String :=
  ((progs.map instanceNamesOf).flatten).dedup

/-- Insertion of a string into a sorted list (for Python `sorted`). -/
def insertSorted (x : String) : List String → List String
  | [] => [x]
  | y :: t => if x ≤ y then x :: y :: t else y :: insertSorted x t

/-- Python `sorted` on a list of strings (insertion sort). -/
def sortStrings : List String → List String
  | [] => []
  | x :: t => insertSorted x (sortStrings t)

/-- Python `list.remove`: drop the first occurrence. -/
def removeFirst (m : String) : List String → List String
  | [] => []
  | x :: t => if x = m then t else x :: removeFirst m t

/-- The removal loop of `reload_config` (core.py lines 129-136): for each
removed name, stop the instance, delete its table entry, and remove the name
from every group member list that contains it. -/
def dropRemoved (st : SupState) (removed : List String) : SupState :=
  removed.foldl
    (fun acc n =>
      { processes := acc.processes.filter (fun kv => decide (kv.1 ≠ n)),
        groups := acc.groups.map
          (fun kv => (kv.1, if kv.2.contains n then removeFirst n kv.2 else kv.2)) })
    st

/-- The per-program test of `Supervisor._program_changed` (core.py lines
161-168): for `numprocs > 1` compare against `replace(prog, name=name)` when
an expanded name matches; otherwise compare directly when the program name
matches; `none` means this program does not match — keep scanning. -/
def programChangedFor (inst : Inst) (n : String) (prog : ProgramConfig) :
    Option Bool :=
  if prog.numprocs > 1 then
    (List.range prog.numprocs).findSome? (fun i =>
      if instanceName prog.name i = n then
        Option.some (decide (inst.config ≠ { prog with name := n }))
      else Option.none)
  else if prog.name = n then Option.some (decide (inst.config ≠ prog))
  else Option.none

/-- The scan of `Supervisor._program_changed` over the new program list,
returning the first applicable comparison (the Python `return` inside the
loop) and `false` when no program matches. -/
def programChangedScan (inst : Inst) (n : String) : List ProgramConfig → Bool
  | [] => false
  | prog :: rest =>
    match programChangedFor inst n prog with
    | Option.some b => b
    | Option.none => programChangedScan inst n rest

/-- `Supervisor._program_changed` (core.py lines 157-169). -/
def program_changed (st : SupState) (n : String) (progs : List ProgramConfig) :
    Bool :=
  match lookupTable st.processes n with
  | Option.none => false
  | Option.some inst => programChangedScan inst n progs

/-- The three sorted name lists returned by `reload_config`. -/
structure ReloadResult where
  added : List String
  removed : List String
  changed : List String
deriving DecidableEq, Repr

/-- `Supervisor.reload_config` (core.py lines 109-155) after `parse_config`
produced `newProgs`: compute `added`/`removed`/`changed`, drop removed
instances, create (and start) added ones via `_create_processes` — whose
TypeError for `numprocs > 1` propagates — and return the sorted lists.
Assigning `self.config` and the warning log for changed names do not touch
the tables. -/
def reload_config (st : SupState) (newProgs : List ProgramConfig) :
    Except String (ReloadResult × SupState) :=
  let oldNames := st.processes.map Prod.fst
  let newNames := newNamesOf newProgs
  let added := newNames.filter (fun n => decide (n ∉ oldNames))
  let removed := oldNames.filter (fun n => decide (n ∉ newNames))
  let changed := (oldNames.filter (fun n => decide (n ∈ newNames))).filter
      (fun n => program_changed st n newProgs)
  let st1 := dropRemoved st removed
  match (if added = [] then Except.ok st1 else create_processes newProgs st1) with
  | Except.error e => Except.error e
  | Except.ok st2 =>
      Except.ok ({ added := sortStrings added, removed := sortStrings removed,
                   changed := sortStrings changed }, st2)

theorem lookupTable_isSome_iff_mem {β : Type} (t : List (String × β)) (n : String) :
    (lookupTable t n).isSome ↔ n ∈ t.map Prod.fst := by
  induction t with
  | nil => simp [lookupTable]
  | cons kv t ih =>
    obtain ⟨k, v⟩ := kv
    by_cases h : k = n
    · subst h; simp [lookupTable]
    · simp only [lookupTable, h, if_false, List.map_cons, List.mem_cons, ih]
      exact ⟨fun hm => Or.inr hm, fun hm => hm.resolve_left (fun he => h he.symm)⟩

theorem lookupTable_append {β : Type} (t1 t2 : List (String × β)) (n : String) :
    lookupTable (t1 ++ t2) n =
      match lookupTable t1 n with
      | Option.some v => Option.some v
      | Option.none => lookupTable t2 n := by
  induction t1 with
  | nil => simp [lookupTable]
  | cons kv t ih =>
    obtain ⟨k, v⟩ := kv
    by_cases h : k = n <;> simp [lookupTable, h, ih]

theorem createInstancesLoop_cons (gname : String) (prog : ProgramConfig)
    (i : Nat) (rest : List Nat) (st : SupState) :
    createInstancesLoop gname prog (i :: rest) st =
      Except.error
        "TypeError: _expand_logfile() takes 2 positional arguments but 3 were given" :=
  rfl

theorem createForProgram_gt_one (st : SupState) (prog : ProgramConfig)
    (h : 1 < prog.numprocs) :
    createForProgram st prog =
      Except.error
        "TypeError: _expand_logfile() takes 2 positional arguments but 3 were given" := by
  obtain ⟨m, hm⟩ : ∃ m, prog.numprocs = m + 1 :=
    ⟨prog.numprocs - 1, (Nat.succ_pred_eq_of_pos (Nat.lt_of_lt_of_le Nat.zero_lt_one h.le)).symm⟩
  unfold createForProgram
  simp only [h, if_true]
  rw [hm, List.range_succ_eq_map]
  exact createInstancesLoop_cons _ _ _ _ _

theorem createForProgram_le_one (st : SupState) (prog : ProgramConfig)
    (h : prog.numprocs ≤ 1) :
    createForProgram st prog = Except.ok
      (if (lookupTable st.processes prog.name).isSome then
        { st with groups := ensureGroup st.groups (groupNameOf prog) }
      else
        { processes := st.processes ++ [(prog.name, initInst prog)],
          groups := appendGroupMember (ensureGroup st.groups (groupNameOf prog))
            (groupNameOf prog) prog.name }) := by
  have hn : ¬ prog.numprocs > 1 := Nat.not_lt.mpr h
  unfold createForProgram
  simp only [hn, if_false]
  split <;> simp_all

theorem create_processes_ok_numprocs (progs : List ProgramConfig) :
    ∀ (st st' : SupState), create_processes progs st = Except.ok st' →
      ∀ prog ∈ progs, prog.numprocs ≤ 1 := by
  induction progs with
  | nil => intro st st' h prog hp; cases hp
  | cons p rest ih =>
    intro st st' h prog hp
    rw [create_processes] at h
    cases hcp : createForProgram st p with
    | error e => rw [hcp] at h; cases h
    | ok st2 =>
      rw [hcp] at h
      rcases List.mem_cons.mp hp with hpe | hpr
      · subst hpe
        by_cases hn : 1 < prog.numprocs
        · rw [createForProgram_gt_one st prog hn] at hcp; cases hcp
        · exact Nat.not_lt.mp hn
      · exact ih st2 st' h prog hpr

theorem create_processes_lookup (progs : List ProgramConfig) :
    ∀ (st st' : SupState), (∀ p ∈ progs, p.numprocs ≤ 1) →
      create_processes progs st = Except.ok st' →
      ∀ n, lookupTable st'.processes n =
        match lookupTable st.processes n with
        | Option.some i => Option.some i
        | Option.none =>
            Option.map initInst (progs.find? (fun p => p.name == n)) := by
  induction progs with
  | nil =>
    intro st st' _ h n
    rw [create_processes] at h
    cases h
    cases hl : lookupTable st.processes n <;> simp [hl, List.find?]
  | cons p rest ih =>
    intro st st' hle h n
    have hp1 : p.numprocs ≤ 1 := hle p (by simp)
    rw [create_processes, createForProgram_le_one st p hp1] at h
    have hrest : ∀ q ∈ rest, q.numprocs ≤ 1 :=
      fun q hq => hle q (List.mem_cons_of_mem _ hq)
    by_cases hps : (lookupTable st.processes p.name).isSome
    · simp only [hps, if_true] at h
      have hih := ih _ _ hrest h n
      rw [hih]
      by_cases hpn : p.name = n
      · subst hpn
        obtain ⟨i, hi⟩ := Option.isSome_iff_exists.mp hps
        simp [hi]
      · have hfind : List.find? (fun q => q.name == n) (p :: rest) =
            List.find? (fun q => q.name == n) rest :=
          List.find?_cons_of_neg _ (by simp [hpn])
        rw [hfind]
    · simp only [hps, if_false] at h
      have hih := ih _ _ hrest h n
      have hih2 : lookupTable st'.processes n =
          match lookupTable (st.processes ++ [(p.name, initInst p)]) n with
          | Option.some i => Option.some i
          | Option.none =>
              Option.map initInst (rest.find? (fun q => q.name == n)) := hih
      rw [hih2, lookupTable_append]
      by_cases hpn : p.name = n
      · subst hpn
        have hl : lookupTable st.processes p.name = Option.none :=
          Option.not_isSome_iff_eq_none.mp hps
        have hfind : List.find? (fun q => q.name == p.name) (p :: rest) =
            Option.some p :=
          List.find?_cons_of_pos _ (by simp)
        simp [hl, hfind, lookupTable]
      · have hfind : List.find? (fun q => q.name == n) (p :: rest) =
            List.find? (fun q => q.name == n) rest :=
          List.find?_cons_of_neg _ (by simp [hpn])
        cases hl : lookupTable st.processes n <;>
          simp [hl, lookupTable, hpn, hfind]

theorem programChangedScan_le_one (inst : Inst) (n : String) :
    ∀ (progs : List ProgramConfig), (∀ p ∈ progs, p.numprocs ≤ 1) →
      programChangedScan inst n progs =
        match progs.find? (fun p => p.name == n) with
        | Option.some p => decide (inst.config ≠ p)
        | Option.none => false := by
  intro progs
  induction progs with
  | nil => intro _; rfl
  | cons p rest ih =>
    intro h
    have hp : ¬ p.numprocs > 1 := Nat.not_lt.mpr (h p (by simp))
    have htail := ih (fun q hq => h q (List.mem_cons_of_mem _ hq))
    by_cases hpn : p.name = n
    · subst hpn
      have hfind : List.find? (fun q => q.name == p.name) (p :: rest) =
          Option.some p :=
        List.find?_cons_of_pos _ (by simp)
      simp [programChangedScan, programChangedFor, hp, hfind]
    · have hfind : List.find? (fun q => q.name == n) (p :: rest) =
          List.find? (fun q => q.name == n) rest :=
        List.find?_cons_of_neg _ (by simp [hpn])
      simp [programChangedScan, programChangedFor, hp, hpn, hfind, htail]

theorem flatten_instanceNames :
    ∀ (progs : List ProgramConfig), (∀ p ∈ progs, p.numprocs ≤ 1) →
      (progs.map instanceNamesOf).flatten = progs.map ProgramConfig.name := by
  intro progs
  induction progs with
  | nil => intro _; rfl
  | cons p rest ih =>
    intro h
    have hp : ¬ p.numprocs > 1 := Nat.not_lt.mpr (h p (by simp))
    have htail := ih (fun q hq => h q (List.mem_cons_of_mem _ hq))
    simp [instanceNamesOf, hp, htail]

/-- C8: for a running supervisor whose tables were materialised from parsed
programs `progs`, reloading against the same parsed content returns
`added = removed = changed = []` and leaves the process table and group table
unchanged. -/
theorem c8_reload_unchanged_noop (progs : List ProgramConfig) (st : SupState)
    (h : create_processes progs emptySup = Except.ok st) :
    reload_config st progs =
      Except.ok ({ added := [], removed := [], changed := [] }, st) := by
  have hle : ∀ p ∈ progs, p.numprocs ≤ 1 := create_processes_ok_numprocs progs _ _ h
  have hlook : ∀ n, lookupTable st.processes n =
      Option.map initInst (progs.find? (fun p => p.name == n)) := by
    intro n
    exact create_processes_lookup progs emptySup st hle h n
  have hkeys : ∀ n, n ∈ st.processes.map Prod.fst ↔
      n ∈ progs.map ProgramConfig.name := by
    intro n
    rw [← lookupTable_isSome_iff_mem, hlook n]
    simp only [Option.isSome_map', List.find?_isSome, List.mem_map, beq_iff_eq]
  have hnew : ∀ n, n ∈ newNamesOf progs ↔ n ∈ progs.map ProgramConfig.name := by
    intro n
    unfold newNamesOf
    rw [flatten_instanceNames progs hle, List.mem_dedup]
  have hadded : (newNamesOf progs).filter
      (fun n => decide (n ∉ st.processes.map Prod.fst)) = [] := by
    rw [List.filter_eq_nil_iff]
    intro n hn
    have h2 : n ∈ st.processes.map Prod.fst := (hkeys n).mpr ((hnew n).mp hn)
    simp [h2]
  have hremoved : (st.processes.map Prod.fst).filter
      (fun n => decide (n ∉ newNamesOf progs)) = [] := by
    rw [List.filter_eq_nil_iff]
    intro n hn
    have h2 : n ∈ newNamesOf progs := (hnew n).mpr ((hkeys n).mp hn)
    simp [h2]
  have hchanged : ((st.processes.map Prod.fst).filter
        (fun n => decide (n ∈ newNamesOf progs))).filter
      (fun n => program_changed st n progs) = [] := by
    rw [List.filter_eq_nil_iff]
    intro n hn
    have hmem : n ∈ st.processes.map Prod.fst := (List.mem_filter.mp hn).1
    have hsome : (lookupTable st.processes n).isSome :=
      (lookupTable_isSome_iff_mem _ _).mpr hmem
    cases hf : progs.find? (fun q => q.name == n) with
    | none => rw [hlook n, hf] at hsome; simp at hsome
    | some p =>
      have hlookn : lookupTable st.processes n = Option.some (initInst p) := by
        rw [hlook n, hf]; rfl
      have hscan := programChangedScan_le_one (initInst p) n progs hle
      rw [hf] at hscan
      simp only [program_changed, hlookn, hscan]
      simp [initInst]
  simp only [reload_config, hadded, hremoved, hchanged]
  rfl

/-- Witness for C8 at a concrete running supervisor: one program `web`,
reloaded against the identical parsed content. -/
theorem c8_reload_unchanged_noop_witness :
    reload_config
        { processes := [("web", initInst webCfg)], groups := [("web", ["web"])] }
        [webCfg] =
      Except.ok ({ added := [], removed := [], changed := [] },
        { processes := [("web", initInst webCfg)], groups := [("web", ["web"])] }) :=
  c8_reload_unchanged_noop [webCfg] _ rfl

/-- RPC responses as the JSON objects built by `rpc.py`: `ok` carries a
message, `err` an optional error code and a message. -/
inductive RpcResponse where
  | ok (message : String)
  | err (code : Option String) (message : String)
deriving DecidableEq, Repr

/-- An instance together with the live-child information held in
`Process.process`: the pid of the spawned child, when one is alive. -/
structure ProcView where
  inst : Inst
  childPid : Option Nat
deriving DecidableEq, Repr

/-- Modelled from the spec: `Process.kill` is called by `stop_process`,
`stop`, `supervise` and the health loop but its body is absent from the
sources.  Spec section 4.C: operator stop "transitions to STOPPING, and sends
`stopsignal` to the child's process group. Wait up to `stopwaitsecs`; on
expiry send SIGKILL to the group."  This models the immediate effect: with a
live child, enter STOPPING and send the configured stop signal to the
child's process group (the child was spawned with `start_new_session=True`,
so the group id equals its pid); with no live child nothing happens.  The
second component lists the (signal, process-group) sends performed. -/
def killStep (p : ProcView) : ProcView × List (String × Nat) :=
  match p.childPid with
  | Option.none => (p, [])
  | Option.some pid =>
      ({ p with inst := { p.inst with state := PState.STOPPING } },
       [(p.inst.config.stopsignal, pid)])

/-- `Process.stop_process` (process.py lines 130-134): clear `should_run`
under the state lock, then `kill`. -/
def stop_process (p : ProcView) : ProcView × List (String × Nat) :=
  killStep { p with inst := { p.inst with shouldRun := false } }

/-- Replace the table entry for name `n`. -/
def updateTable (t : List (String × ProcView)) (n : String) (v : ProcView) :
    List (String × ProcView) :=
  t.map (fun kv => if kv.1 = n then (kv.1, v) else kv)

/-- The `stop` branch of `RPCServer.process_request` (rpc.py lines 162-167):
`if name and name in self.supervisor.processes`, call that process's
`stop_process` and reply ok with "Stopped name"; otherwise reply the domain
error "Process not found".  The third component lists the signal sends. -/
def rpcStop (t : List (String × ProcView)) (name : Option String) :
    RpcResponse × List (String × ProcView) × List (String × Nat) :=
  match name with
  | Option.none => (RpcResponse.err Option.none "Process not found", t, [])
  | Option.some n =>
    if n = "" then (RpcResponse.err Option.none "Process not found", t, [])
    else
      match lookupTable t n with
      | Option.none => (RpcResponse.err Option.none "Process not found", t, [])
      | Option.some p =>
          (RpcResponse.ok ("Stopped " ++ n),
           updateTable t n (stop_process p).1, (stop_process p).2)

/-- The `start` branch of `RPCServer.process_request` (rpc.py lines
169-177): a RUNNING process gets "name is already running" without any call
to `start_process`; otherwise `start_process` runs (its lock-section
mutation is `startProcessStep`; the waiting loop of lines 114-128 mutates
nothing) and the reply is "Started name". -/
def rpcStart (t : List (String × ProcView)) (name : Option String) :
    RpcResponse × List (String × ProcView) :=
  match name with
  | Option.none => (RpcResponse.err Option.none "Process not found", t)
  | Option.some n =>
    if n = "" then (RpcResponse.err Option.none "Process not found", t)
    else
      match lookupTable t n with
      | Option.none => (RpcResponse.err Option.none "Process not found", t)
      | Option.some p =>
        if p.inst.state = PState.RUNNING then
          (RpcResponse.ok (n ++ " is already running"), t)
        else
          (RpcResponse.ok ("Started " ++ n),
           updateTable t n { p with inst := startProcessStep p.inst })

theorem lookupTable_updateTable (t : List (String × ProcView)) (n : String)
    (v : ProcView) (p : ProcView) (h : lookupTable t n = Option.some p) :
    lookupTable (updateTable t n v) n = Option.some v := by
  induction t with
  | nil => cases h
  | cons kv t ih =>
    obtain ⟨k, w⟩ := kv
    by_cases hk : k = n
    · subst hk
      show lookupTable ((if k = k then (k, v) else (k, w)) :: updateTable t k v) k
          = Option.some v
      rw [if_pos rfl]
      show (if k = k then Option.some v else lookupTable (updateTable t k v) k)
          = Option.some v
      rw [if_pos rfl]
    · simp only [lookupTable, hk, if_false] at h
      show lookupTable ((if k = n then (k, v) else (k, w)) :: updateTable t n v) n
          = Option.some v
      rw [if_neg hk]
      show (if k = n then Option.some w else lookupTable (updateTable t n v) n)
          = Option.some v
      rw [if_neg hk]
      exact ih h

/-- C3: for every named process present in the table with a live child, the
RPC `stop` command replies ok (not an error), clears the desired-run flag,
transitions the instance to STOPPING, and sends the configured stop signal
to the child's process group. -/
theorem c3_rpc_stop_stops (t : List (String × ProcView)) (n : String)
    (p : ProcView) (pid : Nat) (hn : n ≠ "")
    (hl : lookupTable t n = Option.some p) (hc : p.childPid = Option.some pid) :
    (rpcStop t (Option.some n)).1 = RpcResponse.ok ("Stopped " ++ n) ∧
    lookupTable (rpcStop t (Option.some n)).2.1 n = Option.some (stop_process p).1 ∧
    (stop_process p).1.inst.shouldRun = false ∧
    (stop_process p).1.inst.state = PState.STOPPING ∧
    (rpcStop t (Option.some n)).2.2 = [(p.inst.config.stopsignal, pid)] := by
  have hs : stop_process p =
      ({ p with inst := { p.inst with shouldRun := false, state := PState.STOPPING } },
       [(p.inst.config.stopsignal, pid)]) := by
    simp [stop_process, killStep, hc]
  refine ⟨?_, ?_, ?_, ?_, ?_⟩
  · simp [rpcStop, hn, hl]
  · simp only [rpcStop, hn, if_false, hl]
    exact lookupTable_updateTable t n _ p hl
  · rw [hs]
  · rw [hs]
  · simp [rpcStop, hn, hl, hs]

/-- A RUNNING `webCfg` instance with a live child of pid 4242. -/
def webRunView : ProcView :=
  { inst := { config := webCfg, state := PState.RUNNING, backoff := 0,
              shouldRun := true, spawnCount := 1 },
    childPid := Option.some 4242 }

/-- Witness for C3: a one-entry table holding a RUNNING instance of `webCfg`
with live child pid 4242; stopping it signals TERM to group 4242. -/
theorem c3_rpc_stop_stops_witness :
    (rpcStop [("web", webRunView)] (Option.some "web")).1 =
      RpcResponse.ok "Stopped web" ∧
    (rpcStop [("web", webRunView)] (Option.some "web")).2.2 =
      [("TERM", 4242)] := by
  have h := c3_rpc_stop_stops [("web", webRunView)] "web" webRunView
    4242 (by decide) (by simp [lookupTable]) rfl
  exact ⟨h.1, h.2.2.2.2⟩

/-- C10: for every named process in the table whose state is RUNNING, the
RPC `start` command replies "name is already running" without invoking
`start_process`, and the table — hence the instance's state, `should_run`
and `backoff` — is unchanged. -/
theorem c10_rpc_start_already_running (t : List (String × ProcView))
    (n : String) (p : ProcView) (hn : n ≠ "")
    (hl : lookupTable t n = Option.some p)
    (hr : p.inst.state = PState.RUNNING) :
    rpcStart t (Option.some n) =
      (RpcResponse.ok (n ++ " is already running"), t) := by
  simp [rpcStart, hn, hl, hr]

/-- A RUNNING `webCfg` instance with nonzero backoff and a live child. -/
def webRunView2 : ProcView :=
  { inst := { config := webCfg, state := PState.RUNNING, backoff := 2,
              shouldRun := true, spawnCount := 3 },
    childPid := Option.some 77 }

/-- Witness for C10: a RUNNING instance named `web` is left untouched. -/
theorem c10_rpc_start_already_running_witness :
    rpcStart [("web", webRunView2)] (Option.some "web") =
      (RpcResponse.ok "web is already running", [("web", webRunView2)]) := by
  have h := c10_rpc_start_already_running [("web", webRunView2)] "web" webRunView2
    (by decide) (by simp [lookupTable]) rfl
  simpa using h

/-- `rpc.MAX_MESSAGE_SIZE` (1 MiB). -/
def MAX_MESSAGE_SIZE : Nat := 1024 * 1024

/-- Result of `RPCServer._read_message` (rpc.py lines 55-72). -/
inductive ReadResult where
  | msg (bodyLen : Nat)
  | tooLarge (declaredLen : Nat)
  | incomplete
deriving DecidableEq, Repr

/-- `RPCServer._read_message` for a frame whose 4-byte big-endian header
declares `declaredLen` and whose connection can still deliver `avail` body
bytes: a declared length above `MAX_MESSAGE_SIZE` raises ValueError before
any body byte is read; a declared length of 0 returns the empty body;
otherwise exactly `declaredLen` bytes are read (IncompleteReadError when the
client disconnects early). -/
def read_message (declaredLen avail : Nat) : ReadResult :=
  if declaredLen > MAX_MESSAGE_SIZE then ReadResult.tooLarge declaredLen
  else if declaredLen = 0 then ReadResult.msg 0
  else if avail < declaredLen then ReadResult.incomplete
  else ReadResult.msg declaredLen

/-- What one connection observes from `RPCServer.handle_client`. -/
structure ClientOutcome where
  bodyRead : Bool
  response : Option RpcResponse
  closed : Bool
deriving DecidableEq, Repr

/-- `RPCServer.handle_client` (rpc.py lines 80-138) at the framing level;
`process` abstracts JSON parsing, request validation, and dispatch of a body
of the given length (lines 88-124).  The ValueError raised by the oversize
check is caught by the generic `except Exception` handler, which attempts a
best-effort INTERNAL_ERROR response carrying `str(e)`; the finally block
always closes the connection. -/
def handle_client (process : Nat → RpcResponse) (declaredLen avail : Nat) :
    ClientOutcome :=
  match read_message declaredLen avail with
  | ReadResult.msg bodyLen =>
      { bodyRead := true, response := Option.some (process bodyLen),
        closed := true }
  | ReadResult.tooLarge d =>
      { bodyRead := false,
        response := Option.some (RpcResponse.err (Option.some "INTERNAL_ERROR")
          ("Message too large: " ++ toString d ++ " bytes (max "
            ++ toString MAX_MESSAGE_SIZE ++ ")")),
        closed := true }
  | ReadResult.incomplete =>
      { bodyRead := false, response := Option.none, closed := true }

/-- C7: a frame declaring exactly 1 MiB is read and dispatched, while any
declared length of 1 MiB + 1 or more is rejected: the body is not read, a
best-effort error response is produced, and the connection is closed. -/
theorem c7_one_mib_boundary (process : Nat → RpcResponse) (avail L : Nat) :
    (MAX_MESSAGE_SIZE ≤ avail →
      handle_client process MAX_MESSAGE_SIZE avail =
        { bodyRead := true,
          response := Option.some (process MAX_MESSAGE_SIZE), closed := true }) ∧
    (MAX_MESSAGE_SIZE < L →
      handle_client process L avail =
        { bodyRead := false,
          response := Option.some (RpcResponse.err (Option.some "INTERNAL_ERROR")
            ("Message too large: " ++ toString L ++ " bytes (max "
              ++ toString MAX_MESSAGE_SIZE ++ ")")),
          closed := true }) := by
  constructor
  · intro h
    have h0 : ¬ MAX_MESSAGE_SIZE = 0 := by decide
    have h1 : ¬ MAX_MESSAGE_SIZE > MAX_MESSAGE_SIZE := Nat.lt_irrefl _
    have h2 : ¬ avail < MAX_MESSAGE_SIZE := Nat.not_lt.mpr h
    simp [handle_client, read_message, h0, h1, h2]
  · intro h
    simp [handle_client, read_message, h]

/-- Witness for C7 at the concrete boundary: declared lengths 1048576 and
1048577 with 1048576 available body bytes. -/
theorem c7_one_mib_boundary_witness :
    handle_client (fun k => RpcResponse.ok (toString k)) 1048576 1048576 =
      { bodyRead := true, response := Option.some (RpcResponse.ok "1048576"),
        closed := true } ∧
    handle_client (fun k => RpcResponse.ok (toString k)) 1048577 1048576 =
      { bodyRead := false,
        response := Option.some (RpcResponse.err (Option.some "INTERNAL_ERROR")
          "Message too large: 1048577 bytes (max 1048576)"),
        closed := true } := by
  constructor
  · have h := (c7_one_mib_boundary (fun k => RpcResponse.ok (toString k))
      1048576 1048577).1 (by decide)
    simpa using h
  · have h := (c7_one_mib_boundary (fun k => RpcResponse.ok (toString k))
      1048576 1048577).2 (by decide)
    simpa using h

/-- `events.EventType`. -/
inductive EventType where
  | PROCESS_STATE_STARTING
  | PROCESS_STATE_RUNNING
  | PROCESS_STATE_BACKOFF
  | PROCESS_STATE_STOPPING
  | PROCESS_STATE_EXITED
  | PROCESS_STATE_STOPPED
  | PROCESS_STATE_FATAL
  | PROCESS_STATE_UNKNOWN
  | PROCESS_STATE_UNHEALTHY
  | HEALTHCHECK_PASSED
  | HEALTHCHECK_FAILED
deriving DecidableEq, Repr

/-- A JSON-ish payload value as used in the event payload dicts of
`process.py`. -/
inductive PayloadVal where
  | str (s : String)
  | nat (n : Nat)
  | none
deriving DecidableEq, Repr

/-- `events.Event`: an event type tag plus a payload dict. -/
structure Event where
  type : EventType
  payload : List (String × PayloadVal)
deriving DecidableEq, Repr

/-- `events.MAX_EVENT_QUEUE_SIZE`. -/
def MAX_EVENT_QUEUE_SIZE : Nat := 1000

/-- `events.EventBus` state: the bounded FIFO (head = oldest), its bound
(`maxsize = 0` is an unbounded asyncio queue), and the dropped-events
counter. -/
structure EventBus where
  maxsize : Nat
  queue : List Event
  dropped : Nat
deriving DecidableEq, Repr

/-- `EventBus.__init__` with the given maxsize. -/
def newBus (maxsize : Nat) : EventBus :=
  { maxsize := maxsize, queue := [], dropped := 0 }

/-- `EventBus.publish` (events.py lines 54-73): `put_nowait`; on a full
queue increment the drop counter, remove the oldest event and enqueue the
new one (single-threaded, so the inner retry always succeeds). -/
def publish (b : EventBus) (e : Event) : EventBus :=
  if b.maxsize = 0 ∨ b.queue.length < b.maxsize then
    { b with queue := b.queue ++ [e] }
  else
    { b with dropped := b.dropped + 1, queue := b.queue.drop 1 ++ [e] }

/-- A sequence of `publish` calls. -/
def publishAll (b : EventBus) (es : List Event) : EventBus :=
  es.foldl publish b

/-- Modelled from the spec: the dispatcher body `EventBus._process_events` is
referenced by `EventBus.start` (events.py line 39) but absent from the
sources.  Spec section 4.A: "A single dispatcher removes events in order and
invokes every handler registered for that kind; handler exceptions are caught
and logged but do not break dispatch."  Dispatching a started bus's queue
therefore produces, in queue order, one invocation per (handler, event) pair
with the handler subscribed (`EventBus.subscribe`) to the event's type;
handlers are identified by ids. -/
def dispatchInvocations (subs : EventType → List Nat) (b : EventBus) :
    List (Nat × Event) :=
  (b.queue.map (fun e => (subs e.type).map (fun h => (h, e)))).flatten

theorem publish_suffix_counts (b : EventBus) (e : Event) :
    ((publish b e).queue <:+ b.queue ++ [e]) ∧
    (publish b e).dropped + (publish b e).queue.length
      = b.dropped + (b.queue.length + 1) ∧
    (publish b e).maxsize = b.maxsize := by
  unfold publish
  by_cases h : b.maxsize = 0 ∨ b.queue.length < b.maxsize
  · simp [h]
  · have hlen : 0 < b.queue.length := by
      push_neg at h
      exact Nat.lt_of_lt_of_le (Nat.pos_of_ne_zero h.1) h.2
    refine ⟨?_, ?_, ?_⟩
    · simp only [h, if_false]
      exact ⟨b.queue.take 1, by
        cases hq : b.queue with
        | nil => rw [hq] at hlen; cases hlen
        | cons x xs => simp [hq]⟩
    · simp only [h, if_false]
      simp [List.length_append, List.length_drop]
      omega
    · simp [h]

theorem publishAll_suffix_counts (es : List Event) :
    ∀ (b : EventBus),
      ((publishAll b es).queue <:+ b.queue ++ es) ∧
      (publishAll b es).dropped + (publishAll b es).queue.length
        = b.dropped + (b.queue.length + es.length) := by
  induction es with
  | nil => intro b; simp [publishAll]
  | cons e es ih =>
    intro b
    have hstep := publish_suffix_counts b e
    have hrec := ih (publish b e)
    constructor
    · have h1 : (publishAll (publish b e) es).queue <:+ (publish b e).queue ++ es :=
        hrec.1
      have h2 : (publish b e).queue ++ es <:+ (b.queue ++ [e]) ++ es := by
        obtain ⟨t, ht⟩ := hstep.1
        exact ⟨t, by rw [← List.append_assoc, ht]⟩
      have h3 : (b.queue ++ [e]) ++ es = b.queue ++ (e :: es) := by simp
      show (publishAll b (e :: es)).queue <:+ b.queue ++ (e :: es)
      rw [← h3]
      exact h1.trans h2
    · show (publishAll (publish b e) es).dropped
          + (publishAll (publish b e) es).queue.length
        = b.dropped + (b.queue.length + (es.length + 1))
      rw [hrec.2]
      have hc := hstep.2.1
      omega

/-- C6: after any sequence of publishes on a started bus, the queue handed
to the dispatcher is an order-preserving suffix of the published sequence and
the drop counter accounts exactly for the events no longer in it; hence for
every published event, either the dispatcher invokes every handler
subscribed to the event's kind with that event (deliveries in publication
order, the dispatched queue being a suffix), or the bus's dropped-event
counter has been incremented. -/
theorem c6_deliver_or_drop (subs : EventType → List Nat) (cap : Nat)
    (es : List Event) :
    ((publishAll (newBus cap) es).queue <:+ es) ∧
    ((publishAll (newBus cap) es).dropped
        + (publishAll (newBus cap) es).queue.length = es.length) ∧
    (∀ e ∈ es,
      (∀ h ∈ subs e.type,
        (h, e) ∈ dispatchInvocations subs (publishAll (newBus cap) es))
      ∨ 1 ≤ (publishAll (newBus cap) es).dropped) := by
  have h := publishAll_suffix_counts es (newBus cap)
  have hsuf : (publishAll (newBus cap) es).queue <:+ es := by
    have h1 := h.1
    simpa [newBus] using h1
  have hcnt : (publishAll (newBus cap) es).dropped
      + (publishAll (newBus cap) es).queue.length = es.length := by
    have h2 := h.2
    simpa [newBus] using h2
  refine ⟨hsuf, hcnt, ?_⟩
  intro e he
  by_cases hm : e ∈ (publishAll (newBus cap) es).queue
  · left
    intro hh hsub
    unfold dispatchInvocations
    rw [List.mem_flatten]
    exact ⟨(subs e.type).map (fun k => (k, e)), List.mem_map_of_mem _ hm,
      List.mem_map_of_mem _ hsub⟩
  · right
    by_contra hd
    push_neg at hd
    have hd0 : (publishAll (newBus cap) es).dropped = 0 := by omega
    have hlen : (publishAll (newBus cap) es).queue.length = es.length := by
      omega
    have heq : (publishAll (newBus cap) es).queue = es :=
      List.IsSuffix.eq_of_length hsuf hlen
    rw [heq] at hm
    exact hm he

/-- A STARTING state event, for the bus witness. -/
def busEv1 : Event :=
  { type := EventType.PROCESS_STATE_STARTING,
    payload := [("processname", PayloadVal.str "web")] }

/-- A RUNNING state event, for the bus witness. -/
def busEv2 : Event :=
  { type := EventType.PROCESS_STATE_RUNNING,
    payload := [("processname", PayloadVal.str "web")] }

/-- Witness for C6: on a capacity-1 bus that received two events, the second
event is delivered to handler 7 or the drop counter is positive. -/
theorem c6_deliver_or_drop_witness :
    ((7, busEv2) ∈ dispatchInvocations (fun _ => [7])
        (publishAll (newBus 1) [busEv1, busEv2]))
    ∨ 1 ≤ (publishAll (newBus 1) [busEv1, busEv2]).dropped :=
  Or.elim ((c6_deliver_or_drop (fun _ => [7]) 1 [busEv1, busEv2]).2.2 busEv2
      (by simp))
    (fun hall => Or.inl (hall 7 (by simp)))
    (fun hd => Or.inr hd)

/-- The HEALTHCHECK_PASSED event published by `Process._run_health_checks`
(process.py lines 348-357): the payload carries processname, the checker's
message, and the pid. -/
def healthPassedEvent (cfg : ProgramConfig) (message : String)
    (pid : Option Nat) : Event :=
  { type := EventType.HEALTHCHECK_PASSED,
    payload := [("processname", PayloadVal.str cfg.name),
                ("message", PayloadVal.str message),
                ("pid", match pid with
                        | Option.some k => PayloadVal.nat k
                        | Option.none => PayloadVal.none)] }

/-- The HEALTHCHECK_FAILED event published by `Process._run_health_checks`
(process.py lines 369-379): the payload carries processname, the checker's
message, the consecutive-failure count under `failures`, and the pid. -/
def healthFailedEvent (cfg : ProgramConfig) (message : String)
    (failures : Nat) (pid : Option Nat) : Event :=
  { type := EventType.HEALTHCHECK_FAILED,
    payload := [("processname", PayloadVal.str cfg.name),
                ("message", PayloadVal.str message),
                ("failures", PayloadVal.nat failures),
                ("pid", match pid with
                        | Option.some k => PayloadVal.nat k
                        | Option.none => PayloadVal.none)] }

/-- C9 counterexample: at a concrete health event the payload has no
`groupname` field (for either event kind), and the HEALTHCHECK_PASSED
payload has no failure count either, so the claimed field set is absent. -/
theorem c9_counterexample :
    lookupTable (healthPassedEvent webCfg "TCP connection succeeded"
      (Option.some 4242)).payload "groupname" = Option.none ∧
    lookupTable (healthFailedEvent webCfg "TCP connection refused" 1
      (Option.some 4242)).payload "groupname" = Option.none ∧
    lookupTable (healthPassedEvent webCfg "TCP connection succeeded"
      (Option.some 4242)).payload "failures" = Option.none := by
  exact ⟨rfl, rfl, rfl⟩

/-- C9 (amended): every health-check event payload carries processname, a
human message and pid; HEALTHCHECK_FAILED additionally carries the current
consecutive-failure count under `failures`; neither carries `groupname`, and
HEALTHCHECK_PASSED omits the failure count. -/
theorem c9_health_event_payloads (cfg : ProgramConfig) (msg : String)
    (failures : Nat) (pid : Option Nat) :
    (lookupTable (healthPassedEvent cfg msg pid).payload "processname"
        = Option.some (PayloadVal.str cfg.name) ∧
      lookupTable (healthPassedEvent cfg msg pid).payload "message"
        = Option.some (PayloadVal.str msg) ∧
      (lookupTable (healthPassedEvent cfg msg pid).payload "pid").isSome = true ∧
      lookupTable (healthPassedEvent cfg msg pid).payload "groupname"
        = Option.none ∧
      lookupTable (healthPassedEvent cfg msg pid).payload "failures"
        = Option.none) ∧
    (lookupTable (healthFailedEvent cfg msg failures pid).payload "processname"
        = Option.some (PayloadVal.str cfg.name) ∧
      lookupTable (healthFailedEvent cfg msg failures pid).payload "message"
        = Option.some (PayloadVal.str msg) ∧
      lookupTable (healthFailedEvent cfg msg failures pid).payload "failures"
        = Option.some (PayloadVal.nat failures) ∧
      (lookupTable (healthFailedEvent cfg msg failures pid).payload "pid").isSome
        = true ∧
      lookupTable (healthFailedEvent cfg msg failures pid).payload "groupname"
        = Option.none) := by
  cases pid <;>
    simp [healthPassedEvent, healthFailedEvent, lookupTable]

end Supervice

